import Mathlib

/-!
Shallow embedding of the hubspot-crm-integration service (JavaScript) and
verification of the frozen claims about it.

Source files embedded:
  src/services/hubspot.js   (HubSpotService: createContact, updateContact,
                             getContact, searchContacts, batchCreateContacts;
                             PropertiesService: createProperty,
                             createAllCustomProperties, catalog)
  src/routes/contacts.js    (create/update/search/batch route handlers)
  src/routes/properties.js  (setup route handler)
  src/config/hubspot.js     (validateEnvironment, config)

JavaScript values relevant to the embedded code are modelled by `JVal`
(undefined, null, strings, integers, booleans).  JavaScript objects whose
key set varies (the outbound `properties` bags) are modelled as ordered
association lists `List (String × JVal)`, in the insertion order of the
source.  Fallible remote calls are modelled by passing the remote response
in as a value and returning `Except`.
-/

/-- JavaScript value as used by the contact/property code paths: `undefined`,
`null`, strings, (integer) numbers and booleans.  (Floats never influence the
control flow of the embedded code and are left out.) -/
inductive JVal where
  | undef
  | null
  | str (s : String)
  | num (n : Int)
  | bool (b : Bool)
deriving DecidableEq, Repr

/-- JavaScript truthiness for `JVal` (`undefined`, `null`, `""`, `0`, `false`
are falsy). -/
def JVal.truthy : JVal → Bool
  | .undef => false
  | .null => false
  | .str s => !(s = "")
  | .num n => !(n = 0)
  | .bool b => b

/-- JavaScript string conversion (`value.toString()` / template coercion) for
the values that can reach such a conversion in the embedded code. -/
def JVal.asString : JVal → String
  | .undef => "undefined"
  | .null => "null"
  | .str s => s
  | .num n => toString n
  | .bool b => if b then "true" else "false"

/-- The test `v === undefined || v === null || v === ''` used by
`createContact` to strip properties before transmission
(src/services/hubspot.js lines 36-40). -/
def isEmptyish (v : JVal) : Bool :=
  v = JVal.undef || v = JVal.null || v = JVal.str ""

/-- An inbound contact object restricted to the nine fields the service reads
(`contactData.firstName`, ... in src/services/hubspot.js).  A field that is
absent from the JavaScript object reads as `undefined`, so absence and an
explicit `undefined` are both `JVal.undef`. -/
structure ContactData where
  firstName : JVal := JVal.undef
  lastName : JVal := JVal.undef
  email : JVal := JVal.undef
  phone : JVal := JVal.undef
  ownerId : JVal := JVal.undef
  candidateExperience : JVal := JVal.undef
  candidateDateOfJoining : JVal := JVal.undef
  candidateName : JVal := JVal.undef
  candidatePastCompany : JVal := JVal.undef
deriving DecidableEq, Repr

/-- The nine recognized contact fields, used to state per-field properties. -/
inductive ContactField where
  | firstName | lastName | email | phone | ownerId
  | candidateExperience | candidateDateOfJoining | candidateName
  | candidatePastCompany
deriving DecidableEq, Repr

/-- Value of a field of a contact object. -/
def ContactField.get (d : ContactData) : ContactField → JVal
  | .firstName => d.firstName
  | .lastName => d.lastName
  | .email => d.email
  | .phone => d.phone
  | .ownerId => d.ownerId
  | .candidateExperience => d.candidateExperience
  | .candidateDateOfJoining => d.candidateDateOfJoining
  | .candidateName => d.candidateName
  | .candidatePastCompany => d.candidatePastCompany

/-- The fixed camelCase-to-snake_case renaming used by the service
(src/services/hubspot.js lines 20-33, 82-90, 268-279). -/
def ContactField.hubspotKey : ContactField → String
  | .firstName => "firstname"
  | .lastName => "lastname"
  | .email => "email"
  | .phone => "phone"
  | .ownerId => "hubspot_owner_id"
  | .candidateExperience => "candidate_experience"
  | .candidateDateOfJoining => "candidate_date_of_joining"
  | .candidateName => "candidate_name"
  | .candidatePastCompany => "candidate_past_company"

/-- The object literal built by `createContact` (src/services/hubspot.js
lines 20-33) and, identically, the per-item `properties` object built by
`batchCreateContacts` (lines 268-279): all nine mapped keys in source order,
values taken from the input unchanged. -/
def contactPropertyPairs (d : ContactData) : List (String × JVal) :=
  [("firstname", d.firstName),
   ("lastname", d.lastName),
   ("email", d.email),
   ("phone", d.phone),
   ("hubspot_owner_id", d.ownerId),
   ("candidate_experience", d.candidateExperience),
   ("candidate_date_of_joining", d.candidateDateOfJoining),
   ("candidate_name", d.candidateName),
   ("candidate_past_company", d.candidatePastCompany)]

/-- The `properties` object `createContact` transmits: the object literal
after the `delete` loop removing every key whose value is `undefined`,
`null` or `''` (src/services/hubspot.js lines 36-40). -/
def createContactProperties (d : ContactData) : List (String × JVal) :=
  (contactPropertyPairs d).filter (fun p => !isEmptyish p.2)

/-- One element of the `inputs` array built by `batchCreateContacts`
(src/services/hubspot.js lines 268-280): the `properties` object of that
batch input.  No stripping loop runs on it. -/
def batchItemProperties (d : ContactData) : List (String × JVal) :=
  contactPropertyPairs d

/-- The `properties` objects of the `inputs` array sent by
`batchCreateContacts` for a list of contact inputs. -/
def batchCreateInputs (l : List ContactData) : List (List (String × JVal)) :=
  l.map batchItemProperties

/-- The `properties` object built by `updateContact`
(src/services/hubspot.js lines 79-90): starts empty, then one conditional
assignment per recognized field, executed in source order, each guarded by
`!== undefined`. -/
def updateContactProperties (u : ContactData) : List (String × JVal) :=
  (if u.firstName ≠ JVal.undef then [("firstname", u.firstName)] else []) ++
  (if u.lastName ≠ JVal.undef then [("lastname", u.lastName)] else []) ++
  (if u.email ≠ JVal.undef then [("email", u.email)] else []) ++
  (if u.phone ≠ JVal.undef then [("phone", u.phone)] else []) ++
  (if u.ownerId ≠ JVal.undef then [("hubspot_owner_id", u.ownerId)] else []) ++
  (if u.candidateExperience ≠ JVal.undef then
    [("candidate_experience", u.candidateExperience)] else []) ++
  (if u.candidateDateOfJoining ≠ JVal.undef then
    [("candidate_date_of_joining", u.candidateDateOfJoining)] else []) ++
  (if u.candidateName ≠ JVal.undef then
    [("candidate_name", u.candidateName)] else []) ++
  (if u.candidatePastCompany ≠ JVal.undef then
    [("candidate_past_company", u.candidatePastCompany)] else [])

/-! Association-list helper lemmas used to reason about the outbound
property bags. -/

/-- Lookup misses when the key is not among the keys of the list. -/
theorem lookup_eq_none_of_not_mem_keys (l : List (String × JVal)) (k : String)
    (h : k ∉ l.map Prod.fst) : l.lookup k = none := by
  induction l with
  | nil => rfl
  | cons p t ih =>
    simp only [List.map_cons, List.mem_cons, not_or] at h
    simp only [List.lookup]
    have hk : (k == p.1) = false := by
      simp [h.1]
    rw [hk]
    exact ih h.2

/-- Lookup succeeds exactly on the keys of the list. -/
theorem lookup_isSome_iff_mem_keys (l : List (String × JVal)) (k : String) :
    (l.lookup k).isSome ↔ k ∈ l.map Prod.fst := by
  induction l with
  | nil => simp [List.lookup]
  | cons p t ih =>
    by_cases hk : k = p.1
    · simp [List.lookup, hk]
    · have hb : (k == p.1) = false := by simp [hk]
      simp [List.lookup, hb, hk, ih]

/-- Lookup into a filtered association list with pairwise-distinct keys:
the result is the unfiltered lookup, gated by the filter predicate. -/
theorem lookup_filter (q : String × JVal → Bool) (l : List (String × JVal))
    (k : String) (hnd : (l.map Prod.fst).Nodup) :
    (l.filter q).lookup k =
      match l.lookup k with
      | none => none
      | some v => if q (k, v) then some v else none := by
  induction l with
  | nil => rfl
  | cons p t ih =>
    obtain ⟨a, b⟩ := p
    simp only [List.map_cons, List.nodup_cons] at hnd
    obtain ⟨ha, hndt⟩ := hnd
    by_cases hq : q (a, b)
    · by_cases hk : k = a
      · subst hk
        simp [List.filter_cons, hq, List.lookup]
      · have hb : (k == a) = false := by simp [hk]
        simp only [List.filter_cons, hq, if_true, List.lookup, hb]
        exact ih hndt
    · by_cases hk : k = a
      · subst hk
        have hnone : (t.filter q).lookup k = none := by
          apply lookup_eq_none_of_not_mem_keys
          intro hmem
          exact ha (List.map_subset Prod.fst
            (fun _ hx => List.mem_of_mem_filter hx) hmem)
        simp only [List.filter_cons, hq, if_false, List.lookup, hnone,
          Bool.false_eq_true]
        simp [List.lookup, hq]
      · have hb : (k == a) = false := by simp [hk]
        simp only [List.filter_cons, hq, if_false, List.lookup, hb,
          Bool.false_eq_true]
        exact ih hndt

/-- Keys of the create-mode object literal, in source order. -/
theorem keys_contactPropertyPairs (d : ContactData) :
    (contactPropertyPairs d).map Prod.fst =
      ["firstname", "lastname", "email", "phone", "hubspot_owner_id",
       "candidate_experience", "candidate_date_of_joining",
       "candidate_name", "candidate_past_company"] := rfl

/-- The nine mapped keys are pairwise distinct. -/
theorem nodup_contactPropertyKeys (d : ContactData) :
    ((contactPropertyPairs d).map Prod.fst).Nodup := by
  rw [keys_contactPropertyPairs]
  decide

/-- Unfiltered lookup of a recognized field's remote key returns that
field's input value. -/
theorem lookup_contactPropertyPairs (d : ContactData) (f : ContactField) :
    (contactPropertyPairs d).lookup f.hubspotKey = some (f.get d) := by
  cases f <;> rfl

/-- Bridge between the conditional-assignment shape of `updateContact` and a
filter over the nine-pair object literal. -/
theorem filter_undef_cons (k : String) (v : JVal) (rest : List (String × JVal)) :
    ((k, v) :: rest).filter (fun p => !(p.2 == JVal.undef)) =
      (if v ≠ JVal.undef then [(k, v)] else []) ++
        rest.filter (fun p => !(p.2 == JVal.undef)) := by
  by_cases h : v = JVal.undef <;> simp [h, List.filter_cons]

/-- The update-mode `properties` object is the nine-pair literal filtered on
`!== undefined`. -/
theorem update_eq_filter (u : ContactData) :
    updateContactProperties u =
      (contactPropertyPairs u).filter (fun p => !(p.2 == JVal.undef)) := by
  simp only [updateContactProperties, contactPropertyPairs, filter_undef_cons,
    List.filter_nil, List.append_nil, List.append_assoc]

/-- C2: the outbound create-mode properties object contains a mapped key iff
the corresponding input field is neither undefined nor null nor the empty
string, and a retained key carries the input value unchanged under the fixed
camelCase-to-snake_case renaming. -/
theorem C2_create_mapping (d : ContactData) (f : ContactField) :
    ((createContactProperties d).lookup f.hubspotKey =
      if isEmptyish (f.get d) then none else some (f.get d)) ∧
    (f.hubspotKey ∈ (createContactProperties d).map Prod.fst ↔
      isEmptyish (f.get d) = false) := by
  have hl := lookup_filter (fun p => !isEmptyish p.2) (contactPropertyPairs d)
    f.hubspotKey (nodup_contactPropertyKeys d)
  rw [lookup_contactPropertyPairs] at hl
  constructor
  · rw [createContactProperties, hl]
    by_cases h : isEmptyish (f.get d) <;> simp [h]
  · rw [← lookup_isSome_iff_mem_keys, createContactProperties, hl]
    by_cases h : isEmptyish (f.get d) <;> simp [h]

/-- C3: the outbound update-mode properties object mentions exactly the
recognized fields present (not undefined) in the update request, carrying
their values unchanged; in particular a present empty-string value is
included, not stripped. -/
theorem C3_update_mapping (u : ContactData) (f : ContactField) :
    ((updateContactProperties u).lookup f.hubspotKey =
      if f.get u = JVal.undef then none else some (f.get u)) ∧
    (f.hubspotKey ∈ (updateContactProperties u).map Prod.fst ↔
      f.get u ≠ JVal.undef) := by
  have hl := lookup_filter (fun p => !(p.2 == JVal.undef))
    (contactPropertyPairs u) f.hubspotKey (nodup_contactPropertyKeys u)
  rw [lookup_contactPropertyPairs] at hl
  rw [update_eq_filter]
  constructor
  · rw [hl]
    by_cases h : f.get u = JVal.undef <;> simp [h]
  · rw [← lookup_isSome_iff_mem_keys, hl]
    by_cases h : f.get u = JVal.undef <;> simp [h]

/-- Contact input refuting C1: a valid contact whose `phone` is the empty
string.  `createContact` strips the empty phone, the batch path does not. -/
def c1CexContact : ContactData :=
  { firstName := JVal.str "A", lastName := JVal.str "B",
    email := JVal.str "a@b.com", phone := JVal.str "" }

/-- C1 counterexample: the per-item properties object placed in the batch
inputs array differs from the properties object `createContact` would
transmit for the same item (the batch path keeps `phone = ""` and the
undefined fields; the create path strips them). -/
theorem C1_counterexample :
    ¬ (batchCreateInputs [c1CexContact] =
        [createContactProperties c1CexContact]) := by
  decide

/-- C1 (amended): `batchCreateContacts` maps each item with the same key
renaming as `createContact` but performs no stripping: the per-item batch
properties object is the full nine-key literal, and it coincides with what
`createContact` would transmit exactly when none of the nine values is
undefined, null or the empty string. -/
theorem C1_amended_no_stripping (l : List ContactData) (d : ContactData)
    (h : d ∈ l) :
    batchItemProperties d ∈ batchCreateInputs l ∧
    batchItemProperties d = contactPropertyPairs d ∧
    (batchItemProperties d = createContactProperties d ↔
      ∀ p ∈ contactPropertyPairs d, isEmptyish p.2 = false) := by
  refine ⟨List.mem_map_of_mem batchItemProperties h, rfl, ?_⟩
  unfold batchItemProperties createContactProperties
  rw [eq_comm, List.filter_eq_self]
  simp

/-- Witness for `C1_amended_no_stripping` at a concrete one-element batch. -/
theorem C1_amended_no_stripping_witness :
    batchItemProperties c1CexContact ∈ batchCreateInputs [c1CexContact] ∧
    batchItemProperties c1CexContact = contactPropertyPairs c1CexContact ∧
    (batchItemProperties c1CexContact = createContactProperties c1CexContact ↔
      ∀ p ∈ contactPropertyPairs c1CexContact, isEmptyish p.2 = false) :=
  C1_amended_no_stripping [c1CexContact] c1CexContact (by decide)

/-! Email regular expression.  The routes test emails against
`^[^\s@]+@[^\s@]+\.[^\s@]+$` (src/routes/contacts.js lines 42 and 149).
A string matches that pattern exactly when it decomposes as
`A ++ "@" ++ B ++ "." ++ C` with `A`, `B`, `C` nonempty and free of
whitespace and `@`.  Since the character classes exclude `@` and the pattern
holds exactly one literal `@`, splitting the string on `@` must give exactly
two parts; the second part must carry a `.` that is neither its first nor its
last character. -/

/-- Whitespace in the sense of the JavaScript regex class `\s`. -/
def isJsWhitespace (c : Char) : Bool :=
  let n := c.toNat
  n = 0x20 || n = 0x09 || n = 0x0a || n = 0x0d || n = 0x0b || n = 0x0c ||
  n = 0xa0 || n = 0x1680 || (0x2000 ≤ n && n ≤ 0x200a) ||
  n = 0x2028 || n = 0x2029 || n = 0x202f || n = 0x205f || n = 0x3000 ||
  n = 0xfeff

/-- Split a character list on `'@'`, keeping empty segments. -/
def splitOnAtSign : List Char → List (List Char)
  | [] => [[]]
  | c :: cs =>
    if c = '@' then [] :: splitOnAtSign cs
    else
      match splitOnAtSign cs with
      | [] => [[c]]
      | p :: ps => (c :: p) :: ps

/-- Whether the list holds a `'.'` strictly before its last element. -/
def dotBeforeEnd : List Char → Bool
  | [] => false
  | [_] => false
  | c :: rest => (c == '.') || dotBeforeEnd rest

/-- The test `emailRegex.test s` for
`emailRegex = /^[^\s@]+@[^\s@]+\.[^\s@]+$/`. -/
def emailRegexTest (s : String) : Bool :=
  match splitOnAtSign s.data with
  | [loc, dom] =>
    !loc.isEmpty && loc.all (fun c => !isJsWhitespace c) &&
    dom.all (fun c => !isJsWhitespace c) &&
    (match dom with
     | [] => false
     | _ :: tl => dotBeforeEnd tl)
  | _ => false

/-! Batch-create route handler (src/routes/contacts.js lines 255-299). -/

/-- Outcome of a contacts route handler before/instead of the remote call. -/
inductive BatchOutcome where
  | clientError (status : Nat) (message : String)
  | remoteCall (inputs : List (List (String × JVal)))
deriving DecidableEq, Repr

/-- The truthiness test `!contact.firstName || !contact.lastName ||
!contact.email` of the batch validation loop, negated. -/
def requiredFieldsOk (c : ContactData) : Bool :=
  c.firstName.truthy && c.lastName.truthy && c.email.truthy

/-- Index of the first contact failing the truthiness test, mirroring the
`for` loop of src/routes/contacts.js lines 267-275. -/
def firstInvalidIdx : List ContactData → Option Nat
  | [] => none
  | c :: rest =>
    if requiredFieldsOk c then (firstInvalidIdx rest).map (· + 1) else some 0

/-- The POST /api/contacts/batch handler up to the single remote call:
`none` models a body without a `contacts` array (absent, falsy, or not an
array). -/
def batchHandler (contacts : Option (List ContactData)) : BatchOutcome :=
  match contacts with
  | none =>
    .clientError 400 "Request body must contain a \"contacts\" array"
  | some cs =>
    match firstInvalidIdx cs with
    | some i =>
      .clientError 400
        ("Contact at index " ++ toString i ++
         " is missing required fields (firstName, lastName, email)")
    | none => .remoteCall (batchCreateInputs cs)

/-- No invalid index exists exactly when every contact has truthy
firstName, lastName and email. -/
theorem firstInvalidIdx_eq_none_iff (cs : List ContactData) :
    firstInvalidIdx cs = none ↔ ∀ c ∈ cs, requiredFieldsOk c = true := by
  induction cs with
  | nil => simp [firstInvalidIdx]
  | cons c rest ih =>
    by_cases h : requiredFieldsOk c <;>
      simp [firstInvalidIdx, h, ih, Option.map_eq_none']

/-! Update route handler (src/routes/contacts.js lines 128-185). -/

/-- Outcome of the PATCH /api/contacts/:id handler before/instead of the
remote call. -/
inductive UpdateOutcome where
  | clientError (status : Nat) (message : String)
  | remoteCall (updateData : ContactData)
deriving DecidableEq, Repr

/-- `Object.keys(updateData)` for the update object assembled from the nine
`!== undefined` checks of src/routes/contacts.js lines 137-145. -/
def updateDataKeys (u : ContactData) : List String :=
  (if u.firstName ≠ JVal.undef then ["firstName"] else []) ++
  (if u.lastName ≠ JVal.undef then ["lastName"] else []) ++
  (if u.email ≠ JVal.undef then ["email"] else []) ++
  (if u.phone ≠ JVal.undef then ["phone"] else []) ++
  (if u.ownerId ≠ JVal.undef then ["ownerId"] else []) ++
  (if u.candidateExperience ≠ JVal.undef then
    ["candidateExperience"] else []) ++
  (if u.candidateDateOfJoining ≠ JVal.undef then
    ["candidateDateOfJoining"] else []) ++
  (if u.candidateName ≠ JVal.undef then ["candidateName"] else []) ++
  (if u.candidatePastCompany ≠ JVal.undef then
    ["candidatePastCompany"] else [])

/-- The PATCH /api/contacts/:id handler: the email format check runs only
under `if (updateData.email)` (truthiness), then the emptiness check, then
the remote call with the assembled update object. -/
def updateHandler (body : ContactData) : UpdateOutcome :=
  if body.email.truthy && !(emailRegexTest body.email.asString) then
    .clientError 400 "Invalid email format"
  else if (updateDataKeys body).length = 0 then
    .clientError 400 "No valid fields to update provided"
  else
    .remoteCall body

/-- Batch element refuting C4: all three required fields truthy, but the
email does not match the route's email pattern. -/
def c4CexContact : ContactData :=
  { firstName := JVal.str "A", lastName := JVal.str "B",
    email := JVal.str "not-an-email" }

/-- C4 counterexample: a batch whose only element carries an email failing
the pattern is not rejected; the handler proceeds to the remote call, because
the batch route never applies the email format check. -/
theorem C4_counterexample :
    emailRegexTest "not-an-email" = false ∧
    batchHandler (some [c4CexContact]) =
      BatchOutcome.remoteCall (batchCreateInputs [c4CexContact]) := by
  decide

/-- C4 (amended): a missing `contacts` array is rejected with 400; a batch
is rejected with 400 (naming the first offending index) before any remote
call whenever some element lacks a truthy firstName, lastName or email, and
proceeds to the single remote call exactly when every element has all three
— the email format is not checked on the batch path. -/
theorem C4_amended_batch_validation (contacts : List ContactData) :
    batchHandler none =
      BatchOutcome.clientError 400
        "Request body must contain a \"contacts\" array" ∧
    (batchHandler (some contacts) =
        BatchOutcome.remoteCall (batchCreateInputs contacts) ↔
      ∀ c ∈ contacts, requiredFieldsOk c = true) ∧
    (batchHandler (some contacts) =
        BatchOutcome.remoteCall (batchCreateInputs contacts) ∨
      ∃ i : Nat, batchHandler (some contacts) =
        BatchOutcome.clientError 400
          ("Contact at index " ++ toString i ++
           " is missing required fields (firstName, lastName, email)")) := by
  refine ⟨rfl, ?_, ?_⟩
  · rw [← firstInvalidIdx_eq_none_iff]
    unfold batchHandler
    cases h : firstInvalidIdx contacts <;> simp [h]
  · unfold batchHandler
    cases h : firstInvalidIdx contacts with
    | none => exact Or.inl (by simp [h])
    | some i => exact Or.inr ⟨i, by simp [h]⟩

/-- Update body refuting C5: the email field is present with the empty
string. -/
def c5CexBody : ContactData := { email := JVal.str "" }

/-- C5 counterexample: an update whose email is present but empty fails the
email pattern, yet the handler does not answer 400 — the truthiness guard
skips the format check and the request proceeds to the remote call. -/
theorem C5_counterexample :
    c5CexBody.email ≠ JVal.undef ∧
    emailRegexTest (JVal.asString c5CexBody.email) = false ∧
    updateHandler c5CexBody = UpdateOutcome.remoteCall c5CexBody := by
  decide

/-- C5 (amended): the update handler answers 400 without a remote call when
the mapped field set is empty; the email pattern is enforced only when the
email field is present and truthy (in particular a present empty-string
email skips validation); the remote call happens exactly when some field is
present and any truthy email matches the pattern. -/
theorem C5_amended_update_validation (body : ContactData) :
    (updateDataKeys body = [] →
      updateHandler body =
        UpdateOutcome.clientError 400 "No valid fields to update provided") ∧
    (body.email.truthy = true → emailRegexTest body.email.asString = false →
      updateHandler body =
        UpdateOutcome.clientError 400 "Invalid email format") ∧
    (updateHandler body = UpdateOutcome.remoteCall body ↔
      (updateDataKeys body ≠ [] ∧
        (body.email.truthy = true →
          emailRegexTest body.email.asString = true))) := by
  refine ⟨?_, ?_, ?_⟩
  · intro h
    have hemail : body.email = JVal.undef := by
      by_contra hne
      have hmem : "email" ∈ updateDataKeys body := by
        simp [updateDataKeys, hne]
      rw [h] at hmem
      exact absurd hmem (List.not_mem_nil _)
    simp [updateHandler, hemail, h, JVal.truthy]
  · intro ht hre
    simp [updateHandler, ht, hre]
  · unfold updateHandler
    cases ht : body.email.truthy with
    | false =>
      by_cases h2 : (updateDataKeys body).length = 0
      · rw [List.length_eq_zero] at h2
        simp [ht, h2]
      · have hne : updateDataKeys body ≠ [] := by
          intro hx
          exact h2 (by rw [hx]; rfl)
        simp [ht, h2, hne]
    | true =>
      cases hr : emailRegexTest body.email.asString with
      | false => simp [ht, hr]
      | true =>
        by_cases h2 : (updateDataKeys body).length = 0
        · rw [List.length_eq_zero] at h2
          simp [ht, hr, h2]
        · have hne : updateDataKeys body ≠ [] := by
            intro hx
            exact h2 (by rw [hx]; rfl)
          simp [ht, hr, h2, hne]

/-- Witness for `C4_amended_batch_validation`: a concrete batch whose only
element has the three required fields truthy reaches the remote call. -/
theorem C4_amended_batch_validation_witness :
    batchHandler (some [c4CexContact]) =
      BatchOutcome.remoteCall (batchCreateInputs [c4CexContact]) :=
  (C4_amended_batch_validation [c4CexContact]).2.1.mpr (by decide)

/-- Update body used to witness the enforced branch of the amended C5. -/
def c5WitBody : ContactData := { email := JVal.str "bad" }

/-- Witness for `C5_amended_update_validation`: a truthy email failing the
pattern is rejected with 400. -/
theorem C5_amended_update_validation_witness :
    updateHandler c5WitBody =
      UpdateOutcome.clientError 400 "Invalid email format" :=
  (C5_amended_update_validation c5WitBody).2.1 (by decide) (by decide)

/-! Properties service (src/services/properties.js) and the setup route
(src/routes/properties.js). -/

/-- A property definition as submitted to the remote schema endpoint. -/
structure PropertyDefinition where
  name : String
  label : String
  description : String
  groupName : String
  type : String
  fieldType : String
deriving DecidableEq, Repr

/-- The fixed catalog returned by `getCustomPropertiesDefinitions`
(src/services/properties.js): exactly four definitions, in source order. -/
def getCustomPropertiesDefinitions : List PropertyDefinition :=
  [⟨"candidate_experience", "Candidate Experience",
    "Years of professional experience", "contactinformation",
    "number", "number"⟩,
   ⟨"candidate_date_of_joining", "Candidate Date of Joining",
    "Expected or actual date of joining", "contactinformation",
    "date", "date"⟩,
   ⟨"candidate_name", "Candidate Name",
    "Full name of the candidate", "contactinformation",
    "string", "text"⟩,
   ⟨"candidate_past_company", "Candidate Past Company",
    "Previous company or current employer", "contactinformation",
    "string", "text"⟩]

/-- Outcome of one remote HTTP call as the service observes it through the
HTTP client: a response body, or an HTTP error carrying a status and a
message. -/
inductive RemoteResult (α : Type) where
  | ok (data : α)
  | httpError (status : Nat) (message : String)
deriving DecidableEq, Repr

/-- Remote response body for a property creation/retrieval. -/
structure PropertyData where
  name : String
  label : String
  type : String
deriving DecidableEq, Repr

/-- Value returned by `createProperty`: the remote response body on plain
success, or the marker object `(name, status: already_exists)` built on a
409 conflict. -/
inductive PropCreateResult where
  | created (data : PropertyData)
  | statusResult (name : String) (status : String)
deriving DecidableEq, Repr

/-- The error object rethrown by `throw error` (the HTTP client error). -/
structure AxiosError where
  status : Nat
  message : String
deriving DecidableEq, Repr

/-- PropertiesService.createProperty: on success return the response body;
in the catch block, `error.response?.status === 409` yields the
already-exists marker instead of an error, anything else is rethrown. -/
def createProperty (pd : PropertyDefinition)
    (remote : RemoteResult PropertyData) :
    Except AxiosError PropCreateResult :=
  match remote with
  | .ok data => .ok (.created data)
  | .httpError s m =>
    if s = 409 then .ok (.statusResult pd.name "already_exists")
    else .error ⟨s, m⟩

/-- Remote CRM property store, modelled from the spec's data-model
invariant (property names are globally unique within the remote schema;
duplicate creation reports a conflict): creating an existing name answers
409, creating a new name succeeds and records it. -/
def remoteCreateStep (existing : List String) (pd : PropertyDefinition) :
    RemoteResult PropertyData × List String :=
  if pd.name ∈ existing then
    (.httpError 409 "Property already exists", existing)
  else
    (.ok ⟨pd.name, pd.label, pd.type⟩, pd.name :: existing)

/-- The second of two consecutive `createProperty` calls for the same
definition against the modelled remote store. -/
def createPropertySecondOfTwo (pd : PropertyDefinition)
    (existing : List String) : Except AxiosError PropCreateResult :=
  let r1 := remoteCreateStep existing pd
  let r2 := remoteCreateStep r1.2 pd
  createProperty pd r2.1

/-- C6: a 409 conflict makes `createProperty` return the successful
already-exists outcome for the property's name; every non-409 failure is
propagated as an error; and the second of two consecutive creations of the
same name yields already_exists, never an error. -/
theorem C6_conflict_idempotent (pd : PropertyDefinition)
    (existing : List String) (s : Nat) (m : String) (hs : s ≠ 409) :
    createProperty pd (RemoteResult.httpError 409 m) =
      Except.ok (PropCreateResult.statusResult pd.name "already_exists") ∧
    createProperty pd (RemoteResult.httpError s m) =
      Except.error ⟨s, m⟩ ∧
    createPropertySecondOfTwo pd existing =
      Except.ok (PropCreateResult.statusResult pd.name "already_exists") := by
  refine ⟨rfl, ?_, ?_⟩
  · simp [createProperty, hs]
  · by_cases hmem : pd.name ∈ existing <;>
      simp [createPropertySecondOfTwo, remoteCreateStep, hmem, createProperty]

/-- Witness for `C6_conflict_idempotent` at the first catalog definition,
with a 500 as the non-conflict failure. -/
def c6WitDef : PropertyDefinition :=
  ⟨"candidate_experience", "Candidate Experience",
   "Years of professional experience", "contactinformation",
   "number", "number"⟩

/-- Witness for `C6_conflict_idempotent`: concrete conflict, concrete 500
failure, and a concrete double creation starting from an empty remote
store. -/
theorem C6_conflict_idempotent_witness :
    createProperty c6WitDef (RemoteResult.httpError 409 "Conflict") =
      Except.ok (PropCreateResult.statusResult "candidate_experience"
        "already_exists") ∧
    createProperty c6WitDef (RemoteResult.httpError 500 "Internal") =
      Except.error ⟨500, "Internal"⟩ ∧
    createPropertySecondOfTwo c6WitDef [] =
      Except.ok (PropCreateResult.statusResult "candidate_experience"
        "already_exists") :=
  C6_conflict_idempotent c6WitDef [] 500 "Internal" (by decide)

/-- One entry of the `results` array collected by
`createAllCustomProperties`: the item's catalog name and a success flag. -/
structure ItemResult where
  name : String
  success : Bool
deriving DecidableEq, Repr

/-- PropertiesService.createAllCustomProperties: iterates the fixed catalog
in order; a `createProperty` success pushes success true, a thrown error is
caught and pushes success false, and the loop continues with the next item.
The remote response for each definition is supplied by `remote`. -/
def createAllCustomProperties
    (remote : PropertyDefinition → RemoteResult PropertyData) :
    List ItemResult :=
  getCustomPropertiesDefinitions.map (fun p =>
    match createProperty p (remote p) with
    | .ok _ => ⟨p.name, true⟩
    | .error _ => ⟨p.name, false⟩)

/-- The summary the setup route computes over the results
(src/routes/properties.js lines 85-89). -/
structure SetupSummary where
  total : Nat
  successful : Nat
  failed : Nat
deriving DecidableEq, Repr

/-- Summary of a results list: total, successful and failed counts. -/
def setupSummary (results : List ItemResult) : SetupSummary :=
  ⟨results.length,
   (results.filter (fun r => r.success)).length,
   (results.filter (fun r => !r.success)).length⟩

/-- The HTTP status the setup route answers:
`summary.failed > 0 ? 207 : 201`. -/
def setupStatus (results : List ItemResult) : Nat :=
  if (setupSummary results).failed > 0 then 207 else 201

/-- Successful and failed counts partition the results. -/
theorem length_filter_success_add_failed (l : List ItemResult) :
    (l.filter (fun r => r.success)).length +
      (l.filter (fun r => !r.success)).length = l.length := by
  induction l with
  | nil => rfl
  | cons r t ih =>
    by_cases h : r.success <;> simp [List.filter_cons, h] <;> omega

/-- C7: every run of the catalog provisioning returns one result per
catalog item, in catalog order and carrying the item's name, regardless of
which items fail; the setup route answers 201 exactly when the failed count
is 0 and 207 exactly when it is positive, with total 4 and
successful + failed = 4. -/
theorem C7_setup_partial_success
    (remote : PropertyDefinition → RemoteResult PropertyData) :
    (createAllCustomProperties remote).map ItemResult.name =
      getCustomPropertiesDefinitions.map PropertyDefinition.name ∧
    (setupSummary (createAllCustomProperties remote)).total = 4 ∧
    (setupSummary (createAllCustomProperties remote)).successful +
      (setupSummary (createAllCustomProperties remote)).failed = 4 ∧
    (setupStatus (createAllCustomProperties remote) = 201 ↔
      (setupSummary (createAllCustomProperties remote)).failed = 0) ∧
    (setupStatus (createAllCustomProperties remote) = 207 ↔
      0 < (setupSummary (createAllCustomProperties remote)).failed) := by
  have hname : (createAllCustomProperties remote).map ItemResult.name =
      getCustomPropertiesDefinitions.map PropertyDefinition.name := by
    rw [createAllCustomProperties, List.map_map]
    apply List.map_congr_left
    intro p _
    simp only [Function.comp_apply]
    cases h : createProperty p (remote p) <;> simp [h]
  have hlen : (createAllCustomProperties remote).length = 4 := by
    rw [createAllCustomProperties, List.length_map]
    rfl
  refine ⟨hname, ?_, ?_, ?_, ?_⟩
  · exact hlen
  · rw [setupSummary]
    rw [length_filter_success_add_failed]
    exact hlen
  · rw [setupStatus]
    by_cases h : 0 < (setupSummary (createAllCustomProperties remote)).failed
    · simp [h]
      omega
    · simp [h]
      omega
  · rw [setupStatus]
    by_cases h : 0 < (setupSummary (createAllCustomProperties remote)).failed
    · simp [h]
    · simp [h]

/-! Contact retrieval (src/services/hubspot.js lines 124-173) and the GET
/api/contacts/:id route (src/routes/contacts.js lines 92-125). -/

/-- Remote response body for a contact fetch. -/
structure ContactRecord where
  id : String
  properties : List (String × JVal)
deriving DecidableEq, Repr

/-- Result of `getContact`: success with the contact, or the structured
not-found object `(success: false, error, contactId)` returned on a remote
404. -/
inductive GetContactResult where
  | success (contact : ContactRecord)
  | notFound (error : String) (contactId : String)
deriving DecidableEq, Repr

/-- The object thrown by the service catch blocks,
`(success: false, error: message, details)`. -/
structure ServiceError where
  error : String
deriving DecidableEq, Repr

/-- HubSpotService.getContact: a remote 404 returns the structured
not-found result (no throw); any other remote failure is rethrown as the
service error object. -/
def getContact (contactId : String) (remote : RemoteResult ContactRecord) :
    Except ServiceError GetContactResult :=
  match remote with
  | .ok c => .ok (.success c)
  | .httpError s m =>
    if s = 404 then .ok (.notFound "Contact not found" contactId)
    else .error ⟨m⟩

/-- JSON answer of the GET /api/contacts/:id route. -/
inductive GetRouteResponse where
  | okJson (contact : ContactRecord)
  | errJson (status : Nat) (error : String) (contactId : Option String)
deriving DecidableEq, Repr

/-- The GET /api/contacts/:id handler: an unsuccessful service result is
surfaced as 404 carrying the identifier; a thrown service error as 500 with
`error.error || 'Internal server error'`. -/
def getContactRoute (contactId : String)
    (remote : RemoteResult ContactRecord) : GetRouteResponse :=
  match getContact contactId remote with
  | .ok (.success c) => .okJson c
  | .ok (.notFound e cid) => .errJson 404 e (some cid)
  | .error e =>
    .errJson 500 (if e.error = "" then "Internal server error" else e.error)
      none

/-- C8: a remote 404 on retrieval yields the structured not-found result
(success false, error 'Contact not found', the identifier) rather than a
throw, and the route surfaces it as HTTP 404 with the identifier; every
other remote failure is thrown and surfaced as HTTP 500. -/
theorem C8_not_found_handling (cid : String) (m : String) (s : Nat)
    (hs : s ≠ 404) :
    getContact cid (RemoteResult.httpError 404 m) =
      Except.ok (GetContactResult.notFound "Contact not found" cid) ∧
    getContactRoute cid (RemoteResult.httpError 404 m) =
      GetRouteResponse.errJson 404 "Contact not found" (some cid) ∧
    getContact cid (RemoteResult.httpError s m) =
      Except.error ⟨m⟩ ∧
    getContactRoute cid (RemoteResult.httpError s m) =
      GetRouteResponse.errJson 500
        (if m = "" then "Internal server error" else m) none := by
  refine ⟨rfl, rfl, ?_, ?_⟩
  · simp [getContact, hs]
  · simp [getContactRoute, getContact, hs]

/-- Witness for `C8_not_found_handling` at a concrete identifier, message
and a 500 as the non-404 failure. -/
theorem C8_not_found_handling_witness :
    getContact "12345" (RemoteResult.httpError 404 "Not Found") =
      Except.ok (GetContactResult.notFound "Contact not found" "12345") ∧
    getContactRoute "12345" (RemoteResult.httpError 404 "Not Found") =
      GetRouteResponse.errJson 404 "Contact not found" (some "12345") ∧
    getContact "12345" (RemoteResult.httpError 500 "Request failed") =
      Except.error ⟨"Request failed"⟩ ∧
    getContactRoute "12345" (RemoteResult.httpError 500 "Request failed") =
      GetRouteResponse.errJson 500 "Request failed" none :=
  C8_not_found_handling "12345" "Not Found" 500 (by decide) |>.imp id
    (fun h => h.imp id (fun h' =>
      ⟨(C8_not_found_handling "12345" "Request failed" 500 (by decide)).2.2.1,
       by
        have := (C8_not_found_handling "12345" "Request failed" 500
          (by decide)).2.2.2
        simpa using this⟩))

/-! Startup configuration validation (src/config/hubspot.js). -/

/-- Process environment restricted to the three variables the module reads;
`none` is an unset variable. -/
structure Env where
  hubspotAccessToken : Option String
  hubspotBaseUrl : Option String
  port : Option String
deriving DecidableEq, Repr

/-- Digit accumulator for `jsParseInt`: consumes leading decimal digits;
`none` when no digit was consumed. -/
def takeDigitsVal : List Char → Option Nat → Option Nat
  | [], acc => acc
  | c :: cs, acc =>
    if c.isDigit then
      takeDigitsVal cs (some ((acc.getD 0) * 10 + (c.toNat - '0'.toNat)))
    else acc

/-- JavaScript `parseInt(s)` with the default radix: skip leading
whitespace, take an optional sign and then leading decimal digits; `none`
models NaN.  (The automatic hexadecimal prefix detection of `parseInt` is
not modelled; no embedded call site depends on it.) -/
def jsParseInt (s : String) : Option Int :=
  match s.data.dropWhile isJsWhitespace with
  | '+' :: rest => (takeDigitsVal rest none).map (fun n => (n : Int))
  | '-' :: rest => (takeDigitsVal rest none).map (fun n => -(n : Int))
  | rest => (takeDigitsVal rest none).map (fun n => (n : Int))

/-- Validator of HUBSPOT_ACCESS_TOKEN (src/config/hubspot.js lines 8-14):
returns the error text, or `none` when valid. -/
def tokenValidator (v : Option String) : Option String :=
  match v with
  | none => some "Token is required"
  | some s =>
    if s = "" then some "Token is required"
    else if s.length < 20 then
      some "Token appears to be too short (minimum 20 characters)"
    else if !("pat-".data.isPrefixOf s.data) then
      some "Token should start with \"pat-\" for Private App tokens"
    else none

/-- Validator of HUBSPOT_BASE_URL (src/config/hubspot.js lines 24-27),
applied to the value after defaulting. -/
def baseUrlValidator (v : String) : Option String :=
  if (!(v == "")) && !("https://".data.isPrefixOf v.data) then
    some "Base URL must start with https://"
  else none

/-- Validator of PORT (src/config/hubspot.js lines 33-38), applied to the
value after defaulting; when `parseInt` gives NaN and the value is empty,
both range comparisons are false in JavaScript, hence no error. -/
def portValidator (v : String) : Option String :=
  if (!(v == "")) && (jsParseInt v).isNone then
    some "Port must be a valid number"
  else
    match jsParseInt v with
    | none => none
    | some p =>
      if p < 1 ∨ p > 65535 then some "Port must be between 1 and 65535"
      else none

/-- `process.env[name] || default` for an optional variable: an unset or
empty value falls back to the default string. -/
def envOrDefault (v : Option String) (d : String) : String :=
  match v with
  | none => d
  | some s => if s = "" then d else s

/-- The `config` dictionary assembled by `validateEnvironment`: a key is
set only in a success branch, so `none` models a key never assigned. -/
structure EnvConfig where
  hubspotAccessToken : Option String
  hubspotBaseUrl : Option String
  port : Option String
deriving DecidableEq, Repr

/-- Everything `validateEnvironment` accumulates: the error list for the
required variable, the warning list for the optional ones, and the config
dictionary. -/
structure ValidationOutcome where
  errors : List (String × String)
  warnings : List (String × String)
  cfg : EnvConfig
deriving DecidableEq, Repr

/-- validateEnvironment (src/config/hubspot.js lines 43-121): validate the
required token (an error is pushed, the key is not set), then each optional
variable after defaulting (an error becomes a warning and the key is NOT
set; success sets the key to the defaulted value). -/
def validateEnvironment (env : Env) : ValidationOutcome :=
  let tokErr := tokenValidator env.hubspotAccessToken
  let errors := match tokErr with
    | some e => [("HUBSPOT_ACCESS_TOKEN", e)]
    | none => []
  let tokCfg := match tokErr with
    | some _ => none
    | none => env.hubspotAccessToken
  let baseVal := envOrDefault env.hubspotBaseUrl "https://api.hubapi.com"
  let baseErr := baseUrlValidator baseVal
  let portVal := envOrDefault env.port "3000"
  let portErr := portValidator portVal
  let warnings :=
    (match baseErr with
     | some e => [("HUBSPOT_BASE_URL", e)]
     | none => []) ++
    (match portErr with
     | some e => [("PORT", e)]
     | none => [])
  let baseCfg := match baseErr with
    | some _ => none
    | none => some baseVal
  let portCfg := match portErr with
    | some _ => none
    | none => some portVal
  ⟨errors, warnings, ⟨tokCfg, baseCfg, portCfg⟩⟩

/-- The frozen application config built after validation (src/config/hubspot.js
lines 127-131): token and base URL taken from the config dictionary as-is,
port as `parseInt` of the PORT entry (`none` models NaN / undefined). -/
structure AppConfig where
  accessToken : Option String
  baseUrl : Option String
  port : Option Int
deriving DecidableEq, Repr

/-- Module-load sequence of src/config/hubspot.js: run the validation,
abort (throw) when any required-variable error exists, otherwise build the
config object. -/
def startupConfig (env : Env) : Except String AppConfig :=
  let out := validateEnvironment env
  if out.errors.length > 0 then
    .error ("Environment validation failed: " ++
      toString out.errors.length ++ " error(s) found")
  else
    .ok ⟨out.cfg.hubspotAccessToken,
         out.cfg.hubspotBaseUrl,
         match out.cfg.port with
         | none => none
         | some s => jsParseInt s⟩

/-- Environment demonstrating the C9 divergence: a valid required token and
a malformed optional base URL (not HTTPS); PORT unset. -/
def c9Env : Env :=
  ⟨some "pat-01234567890123456789", some "http://api.example.com", none⟩

/-- C9: with a malformed optional base URL, startup does not abort and a
warning is recorded — as the claim says — but the configuration value does
not fall back to the default: the key is never assigned, so the resulting
`config.baseUrl` is undefined rather than `https://api.hubapi.com` (the
warning display even prints `Using default: ...` without using it).  An
invalid required token remains fatal. -/
theorem C9_optional_fallback_bug :
    (validateEnvironment c9Env).errors = [] ∧
    (validateEnvironment c9Env).warnings =
      [("HUBSPOT_BASE_URL", "Base URL must start with https://")] ∧
    (validateEnvironment c9Env).cfg.hubspotBaseUrl = none ∧
    startupConfig c9Env =
      Except.ok ⟨some "pat-01234567890123456789", none, some 3000⟩ ∧
    startupConfig ⟨some "bad", none, none⟩ =
      Except.error "Environment validation failed: 1 error(s) found" :=
  ⟨by decide, by decide, by decide, by rfl, by rfl⟩

/-! Contact search (src/services/hubspot.js lines 176-213) and the GET
/api/contacts search route (src/routes/contacts.js lines 188-228). -/

/-- Query string of the search route, restricted to the parameters it
reads; `none` is an absent parameter.  (Repeated query keys, which express
would deliver as arrays, are outside this model.) -/
structure SearchQuery where
  firstName : Option String := none
  lastName : Option String := none
  email : Option String := none
  ownerId : Option String := none
  candidateExperience : Option String := none
  candidatePastCompany : Option String := none
  limit : Option String := none
deriving DecidableEq, Repr

/-- Truthiness of an optional query-string value (absent and empty are
falsy). -/
def qTruthy : Option String → Bool
  | none => false
  | some s => !(s == "")

/-- The `filters` object assembled by the search route
(src/routes/contacts.js lines 196-201): six truthiness-guarded inserts of
the remote property name, in source order. -/
def buildFilters (q : SearchQuery) : List (String × String) :=
  (if qTruthy q.firstName then [("firstname", q.firstName.getD "")]
   else []) ++
  (if qTruthy q.lastName then [("lastname", q.lastName.getD "")]
   else []) ++
  (if qTruthy q.email then [("email", q.email.getD "")] else []) ++
  (if qTruthy q.ownerId then [("hubspot_owner_id", q.ownerId.getD "")]
   else []) ++
  (if qTruthy q.candidateExperience then
    [("candidate_experience", q.candidateExperience.getD "")] else []) ++
  (if qTruthy q.candidatePastCompany then
    [("candidate_past_company", q.candidatePastCompany.getD "")] else [])

/-- `parseInt(req.query.limit) || 10` (src/routes/contacts.js line 193):
an absent limit parses from `undefined` to NaN; NaN and 0 are falsy and
fall back to 10. -/
def effectiveLimit (q : SearchQuery) : Int :=
  match q.limit with
  | none => 10
  | some s =>
    match jsParseInt s with
    | none => 10
    | some n => if n = 0 then 10 else n

/-- One entry of a `filterGroups` group: an EQ predicate on a property. -/
structure SearchFilter where
  propertyName : String
  operator : String
  value : String
deriving DecidableEq, Repr

/-- The search request body built by `searchContacts`. -/
structure SearchPayload where
  filterGroups : List (List SearchFilter)
  properties : List String
  limit : Int
deriving DecidableEq, Repr

/-- HubSpotService.searchContacts up to the remote call: the fixed
nine-property projection, the caller's limit, and at most one filter group
holding one EQ predicate (value string-converted) per filter entry that is
neither undefined nor null; the group is pushed only when the filters
object is nonempty and produced at least one predicate. -/
def searchContactsPayload (filters : List (String × JVal)) (limit : Int) :
    SearchPayload :=
  let filterArray := filters.filterMap (fun pv =>
    if pv.2 ≠ JVal.undef ∧ pv.2 ≠ JVal.null then
      some ⟨pv.1, "EQ", pv.2.asString⟩
    else none)
  ⟨if filters.length > 0 ∧ filterArray.length > 0 then [filterArray]
    else [],
   ["firstname", "lastname", "email", "phone", "hubspot_owner_id",
    "candidate_experience", "candidate_date_of_joining",
    "candidate_name", "candidate_past_company"],
   limit⟩

/-- The payload the search route makes `searchContacts` transmit: the
query-derived filters (string values) and the effective limit. -/
def searchHandlerPayload (q : SearchQuery) : SearchPayload :=
  searchContactsPayload
    ((buildFilters q).map (fun pv => (pv.1, JVal.str pv.2)))
    (effectiveLimit q)

/-- String-valued filter entries all survive the undefined/null guard, as
EQ predicates carrying the same string. -/
theorem filterMap_of_str_entries (l : List (String × String)) :
    (l.map (fun pv => (pv.1, JVal.str pv.2))).filterMap (fun pv =>
      if pv.2 ≠ JVal.undef ∧ pv.2 ≠ JVal.null then
        some (⟨pv.1, "EQ", pv.2.asString⟩ : SearchFilter)
      else none) =
    l.map (fun pv => ⟨pv.1, "EQ", pv.2⟩) := by
  induction l with
  | nil => rfl
  | cons pv t ih =>
    simp only [List.map_cons, List.filterMap_cons]
    rw [if_pos (by simp)]
    simp only [ih]
    rfl

/-- C10: an empty-string recognized search parameter contributes no filter
(exactly as if absent); a supplied limit parsing to NaN or 0 becomes 10;
the outbound payload holds at most one filter group, which is exactly one
EQ predicate per non-empty recognized parameter with its string value, and
carries the effective limit. -/
theorem C10_search_payload (q : SearchQuery) (s : String) :
    buildFilters { q with firstName := some "" } =
      buildFilters { q with firstName := none } ∧
    buildFilters { q with lastName := some "" } =
      buildFilters { q with lastName := none } ∧
    buildFilters { q with email := some "" } =
      buildFilters { q with email := none } ∧
    buildFilters { q with ownerId := some "" } =
      buildFilters { q with ownerId := none } ∧
    buildFilters { q with candidateExperience := some "" } =
      buildFilters { q with candidateExperience := none } ∧
    buildFilters { q with candidatePastCompany := some "" } =
      buildFilters { q with candidatePastCompany := none } ∧
    ((jsParseInt s = none ∨ jsParseInt s = some 0) →
      effectiveLimit { q with limit := some s } = 10) ∧
    (searchHandlerPayload q).filterGroups.length ≤ 1 ∧
    (∀ g ∈ (searchHandlerPayload q).filterGroups,
      g = (buildFilters q).map (fun pv => ⟨pv.1, "EQ", pv.2⟩)) ∧
    ((searchHandlerPayload q).filterGroups = [] ↔ buildFilters q = []) ∧
    (searchHandlerPayload q).limit = effectiveLimit q := by
  have hgroups : (searchHandlerPayload q).filterGroups =
      if (buildFilters q).length > 0 then
        [(buildFilters q).map (fun pv => ⟨pv.1, "EQ", pv.2⟩)]
      else [] := by
    rw [searchHandlerPayload, searchContactsPayload]
    simp only [filterMap_of_str_entries, List.length_map]
    by_cases h : (buildFilters q).length > 0 <;> simp [h]
  refine ⟨by simp [buildFilters, qTruthy], by simp [buildFilters, qTruthy],
    by simp [buildFilters, qTruthy], by simp [buildFilters, qTruthy],
    by simp [buildFilters, qTruthy], by simp [buildFilters, qTruthy],
    ?_, ?_, ?_, ?_, rfl⟩
  · rintro (h | h) <;> simp [effectiveLimit, h]
  · rw [hgroups]
    by_cases h : (buildFilters q).length > 0 <;> simp [h]
  · rw [hgroups]
    by_cases h : (buildFilters q).length > 0 <;> simp [h]
  · rw [hgroups]
    by_cases h : (buildFilters q).length > 0
    · simp only [h, if_true]
      simp only [List.cons_ne_self]
      constructor
      · intro hx
        exact absurd hx (by simp)
      · intro hx
        exact absurd hx (List.length_pos.mp h)
    · simp only [h, if_false]
      simp only [true_iff]
      exact List.length_eq_zero.mp (Nat.eq_zero_of_not_pos h)

/-- Query used to witness `C10_search_payload`. -/
def c10WitQuery : SearchQuery :=
  { firstName := some "A", email := some "", limit := some "0" }

/-- Witness for `C10_search_payload` at a concrete query with an empty
email, a limit of "0", and one non-empty parameter. -/
theorem C10_search_payload_witness :
    effectiveLimit { c10WitQuery with limit := some "0" } = 10 ∧
    (searchHandlerPayload c10WitQuery).filterGroups.length ≤ 1 :=
  ⟨((C10_search_payload c10WitQuery "0").2.2.2.2.2.2.1)
      (Or.inr (by decide)),
   (C10_search_payload c10WitQuery "0").2.2.2.2.2.2.2.1⟩
